import Mathlib

/-!
Shallow embedding of the PAN Encryption & Tokenization Service
(`src/main.py`): AES-GCM encryption of PANs, random-token tokenization,
first6/last4 masking, a token store keyed by the token, and the three
HTTP endpoints `/encrypt`, `/decrypt`, `/token/{token}`.

Modelling conventions:
- bytes are `List Nat` (each entry < 256 where it matters); PAN strings
  are encoded and decoded with a full UTF-8 codec, and Python's
  `str.isdigit()` is modelled by the exact table of Unicode code points
  with Numeric_Type Digit or Decimal (as shipped with CPython 3.11),
  which accepts non-ASCII digit characters such as U+00B2;
- the third-party `AESGCM` cipher (from the `cryptography` package, not
  part of this repository) is modelled as an ideal AEAD: a ciphertext
  carries the key, nonce and payload it was produced from plus an
  `intact` flag; decryption succeeds exactly when key, nonce and
  associated data match and the ciphertext has not been tampered with
  (`intact = true`), mirroring the AEAD tag check;
- `secrets.token_bytes` / `secrets.token_urlsafe` are modelled as draws
  from explicit random streams with a position counter;
- the sqlite `tokens` table is a list of records with the PRIMARY KEY
  constraint enforced on insert;
- uncaught Python exceptions surface as `ApiError.unhandled`,
  `fastapi.HTTPException(status, detail)` as `ApiError.http`, and the
  pydantic request-model rejection (the `Field` length bounds on
  `EncryptRequest.pan`) as `ApiError.validation`.
-/

namespace PanService

/-- The code points accepted by Python's `str.isdigit()`: the Unicode
characters with Numeric_Type Digit or Decimal, as closed intervals
(table of CPython 3.11). It contains the ASCII digits 48-57 and also
non-ASCII digit characters: superscripts such as U+00B2, the
Arabic-Indic digits U+0660-0669, circled digits, mathematical digits,
and so on. -/
def pythonDigitRanges : List (Nat × Nat) :=
  [(48, 57), (178, 179), (185, 185), (1632, 1641), (1776, 1785), (1984, 1993), (2406, 2415),
   (2534, 2543), (2662, 2671), (2790, 2799), (2918, 2927), (3046, 3055), (3174, 3183),
   (3302, 3311), (3430, 3439), (3558, 3567), (3664, 3673), (3792, 3801), (3872, 3881),
   (4160, 4169), (4240, 4249), (4969, 4977), (6112, 6121), (6160, 6169), (6470, 6479),
   (6608, 6618), (6784, 6793), (6800, 6809), (6992, 7001), (7088, 7097), (7232, 7241),
   (7248, 7257), (8304, 8304), (8308, 8313), (8320, 8329), (9312, 9320), (9332, 9340),
   (9352, 9360), (9450, 9450), (9461, 9469), (9471, 9471), (10102, 10110), (10112, 10120),
   (10122, 10130), (42528, 42537), (43216, 43225), (43264, 43273), (43472, 43481),
   (43504, 43513), (43600, 43609), (44016, 44025), (65296, 65305), (66720, 66729),
   (68160, 68163), (68912, 68921), (69216, 69224), (69714, 69722), (69734, 69743),
   (69872, 69881), (69942, 69951), (70096, 70105), (70384, 70393), (70736, 70745),
   (70864, 70873), (71248, 71257), (71360, 71369), (71472, 71481), (71904, 71913),
   (72016, 72025), (72784, 72793), (73040, 73049), (73120, 73129), (92768, 92777),
   (92864, 92873), (93008, 93017), (120782, 120831), (123200, 123209), (123632, 123641),
   (125264, 125273), (127232, 127242), (130032, 130041)]

/-- Per-character Python `str.isdigit()`: membership in `pythonDigitRanges`. -/
def pythonCharIsDigit (c : Char) : Bool :=
  pythonDigitRanges.any (fun p => p.1 ≤ c.toNat && c.toNat ≤ p.2)

/-- Python `str.isdigit()` (`main.py` line 168): true iff the string is
nonempty and every character has Unicode Numeric_Type Digit or Decimal —
a strictly larger set than the ASCII digits 0-9. -/
def pythonIsDigit (s : String) : Bool :=
  !s.data.isEmpty && s.data.all pythonCharIsDigit

/-- Standard UTF-8 encoding of one Unicode scalar value (1 to 4 bytes). -/
def utf8EncodeChar (c : Char) : List Nat :=
  let n := c.toNat
  if n < 0x80 then [n]
  else if n < 0x800 then [0xC0 + n / 64, 0x80 + n % 64]
  else if n < 0x10000 then [0xE0 + n / 4096, 0x80 + (n / 64) % 64, 0x80 + n % 64]
  else [0xF0 + n / 262144, 0x80 + (n / 4096) % 64, 0x80 + (n / 64) % 64, 0x80 + n % 64]

/-- Python `pan.encode("utf-8")` (`main.py` line 171). -/
def utf8Encode (s : String) : List Nat :=
  s.data.flatMap utf8EncodeChar

/-- Continuation of a 2-byte UTF-8 sequence whose lead contributed `hi`. -/
def utf8Cont1 (hi : Nat) : List Nat → Option (Char × List Nat)
  | b1 :: bs =>
    if 0x80 ≤ b1 ∧ b1 < 0xC0 then some (Char.ofNat (hi * 64 + (b1 - 0x80)), bs)
    else none
  | [] => none

/-- Continuation of a 3-byte UTF-8 sequence: checks the continuation
bytes and rejects overlong encodings and surrogate code points. -/
def utf8Cont2 (hi : Nat) : List Nat → Option (Char × List Nat)
  | b1 :: b2 :: bs =>
    if (0x80 ≤ b1 ∧ b1 < 0xC0) ∧ (0x80 ≤ b2 ∧ b2 < 0xC0) then
      let n := hi * 4096 + (b1 - 0x80) * 64 + (b2 - 0x80)
      if 0x800 ≤ n ∧ (n < 0xD800 ∨ 0xDFFF < n) then some (Char.ofNat n, bs) else none
    else none
  | _ => none

/-- Continuation of a 4-byte UTF-8 sequence: checks the continuation
bytes and rejects overlong and out-of-range encodings. -/
def utf8Cont3 (hi : Nat) : List Nat → Option (Char × List Nat)
  | b1 :: b2 :: b3 :: bs =>
    if (0x80 ≤ b1 ∧ b1 < 0xC0) ∧ (0x80 ≤ b2 ∧ b2 < 0xC0) ∧ (0x80 ≤ b3 ∧ b3 < 0xC0) then
      let n := hi * 262144 + (b1 - 0x80) * 4096 + (b2 - 0x80) * 64 + (b3 - 0x80)
      if 0x10000 ≤ n ∧ n < 0x110000 then some (Char.ofNat n, bs) else none
    else none
  | _ => none

/-- Decode one UTF-8 scalar value from the front of a byte list,
rejecting malformed leads (including the overlong leads 0xC0/0xC1 and
leads above 0xF4), returning the character and the remaining bytes. -/
def utf8DecodeChar : List Nat → Option (Char × List Nat)
  | [] => none
  | b :: bs =>
    if b < 0x80 then some (Char.ofNat b, bs)
    else if b < 0xC2 then none
    else if b < 0xE0 then utf8Cont1 (b - 0xC0) bs
    else if b < 0xF0 then utf8Cont2 (b - 0xE0) bs
    else if b < 0xF5 then utf8Cont3 (b - 0xF0) bs
    else none

/-- Fuelled UTF-8 decode loop; each step consumes at least one byte, so
fuel equal to the byte count always suffices. -/
def utf8DecodeAux : Nat → List Nat → Option (List Char)
  | _, [] => some []
  | 0, _ :: _ => none
  | fuel + 1, b :: bs =>
    match utf8DecodeChar (b :: bs) with
    | none => none
    | some (c, rest) => (utf8DecodeAux fuel rest).map (fun cs => c :: cs)

/-- Python `pan_bytes.decode("utf-8")` (`main.py` line 193): strict UTF-8
decoding; malformed input fails (and in `decrypt` that failure is caught
by the same `except` as AEAD failure). -/
def utf8Decode (bs : List Nat) : Option String :=
  (utf8DecodeAux bs.length bs).map String.mk

/-- Ideal-AEAD model of an `AESGCM` ciphertext (the `cryptography`
library is external to the repository; spec section 4.1 specifies AEAD
with tamper detection). The ciphertext records the encryption key,
nonce, payload and associated data; `intact = false` marks a ciphertext
that was tampered with after encryption (AEAD tag mismatch). -/
structure GCMCiphertext where
  encKey : List Nat
  encNonce : List Nat
  payload : List Nat
  aad : Option (List Nat)
  intact : Bool
deriving DecidableEq

/-- `AESGCM(key).encrypt(nonce, pt, aad)`: ideal authenticated encryption. -/
def aesgcmEncrypt (key nonce pt : List Nat) (aad : Option (List Nat)) : GCMCiphertext :=
  { encKey := key, encNonce := nonce, payload := pt, aad := aad, intact := true }

/-- `AESGCM(key).decrypt(nonce, ct, aad)`: succeeds exactly when the tag
verifies — the ciphertext is intact and key, nonce and associated data
match the ones used at encryption; otherwise `InvalidTag` is raised
(modelled as `none`). -/
def aesgcmDecrypt (key nonce : List Nat) (ct : GCMCiphertext) (aad : Option (List Nat)) :
    Option (List Nat) :=
  if ct.intact = true ∧ ct.encKey = key ∧ ct.encNonce = nonce ∧ ct.aad = aad then
    some ct.payload
  else none

/-- `secrets.token_bytes(n)` drawing from a byte stream at position
`pos`: returns `n` bytes and is paired with the advanced position by the
callers that track consumption. -/
def token_bytes (stream : Nat → Nat) (pos n : Nat) : List Nat :=
  (List.range n).map (fun i => stream (pos + i) % 256)

/-- Startup gate on the master key (`main.py` lines 38-39):
`if len(MASTER_KEY) not in (16, 24, 32): raise SystemExit(...)`.
`Except.error` is the fatal `SystemExit`: the process refuses to serve. -/
def masterKeyStartup (key : List Nat) : Except String (List Nat) :=
  if key.length = 16 ∨ key.length = 24 ∨ key.length = 32 then Except.ok key
  else Except.error "MASTER_KEY must be 16, 24, or 32 bytes for AES-GCM"

/-- `encrypt_pan_bytes` (`main.py` lines 100-104): draws a fresh 12-byte
nonce from the secure source and encrypts with no associated data.
Returns ((nonce, ciphertext), advanced stream position). -/
def encrypt_pan_bytes (key : List Nat) (stream : Nat → Nat) (pos : Nat) (pan_bytes : List Nat) :
    (List Nat × GCMCiphertext) × Nat :=
  let nonce := token_bytes stream pos 12
  ((nonce, aesgcmEncrypt key nonce pan_bytes none), pos + 12)

/-- `decrypt_pan_bytes` (`main.py` lines 107-109). -/
def decrypt_pan_bytes (key nonce : List Nat) (ciphertext : GCMCiphertext) : Option (List Nat) :=
  aesgcmDecrypt key nonce ciphertext none

/-- `mask_pan` (`main.py` lines 113-115). `length` is a Python `int`;
`"*" * middle` yields the empty string when `middle` is negative, which
`Int.toNat` reproduces. -/
def mask_pan (first6 last4 : String) (length : Int) : String :=
  let middle : Int := length - (first6.length : Int) - (last4.length : Int)
  first6 ++ String.mk (List.replicate middle.toNat '*') ++ last4

/-- One row of the sqlite `tokens` table (`main.py` lines 46-56). -/
structure TokenRecord where
  token : String
  ciphertext : GCMCiphertext
  nonce : List Nat
  pan_length : Nat
  first6 : String
  last4 : String
  created_at : String
deriving DecidableEq

/-- Failure of the sqlite INSERT: the PRIMARY KEY constraint on `token`
raises `sqlite3.IntegrityError`. -/
inductive DbError where
  | duplicateToken : DbError
deriving DecidableEq

/-- Errors surfaced to the HTTP caller: pydantic request-model
rejection, an explicit `HTTPException(status, detail)`, or an uncaught
exception (FastAPI turns it into a generic 500). -/
inductive ApiError where
  | validation : String → ApiError
  | http : Nat → String → ApiError
  | unhandled : String → ApiError
deriving DecidableEq

/-- Response model of `/encrypt` (`main.py` lines 79-81). -/
structure EncryptResponse where
  token : String
  masked_pan : String
deriving DecidableEq

/-- Response model of `/decrypt` (`main.py` lines 88-90). -/
structure DecryptResponse where
  pan : String
  masked_pan : String
deriving DecidableEq

/-- Response model of `/token/{token}` (`main.py` lines 93-96). -/
structure TokenMetadata where
  token : String
  masked_pan : String
  created_at : String
deriving DecidableEq

/-- The random sources used by the service: the byte stream behind
`secrets.token_bytes` and the token stream behind
`secrets.token_urlsafe(24)`. -/
structure RNG where
  byteStream : Nat → Nat
  tokenStream : Nat → String

/-- Mutable state visible to the endpoints: the `tokens` table and the
consumption positions of the two random streams. -/
structure SysState where
  db : List TokenRecord
  bytePos : Nat
  tokenPos : Nat
deriving DecidableEq

/-- `save_token` (`main.py` lines 119-133): sqlite INSERT; the PRIMARY
KEY on `token` makes a duplicate insert raise `sqlite3.IntegrityError`
and leave the table unchanged. -/
def save_token (db : List TokenRecord) (token : String) (nonce : List Nat)
    (ciphertext : GCMCiphertext) (pan_length : Nat) (first6 last4 created_at : String) :
    Except DbError (List TokenRecord) :=
  if db.any (fun r => r.token == token) then Except.error DbError.duplicateToken
  else Except.ok
    ({ token := token, ciphertext := ciphertext, nonce := nonce, pan_length := pan_length,
       first6 := first6, last4 := last4, created_at := created_at } :: db)

/-- `get_token_record` (`main.py` lines 136-153): SELECT by primary key. -/
def get_token_record (db : List TokenRecord) (token : String) : Option TokenRecord :=
  db.find? (fun r => r.token == token)

/-- The `/encrypt` endpoint (`main.py` lines 164-182), together with the
pydantic validation of `EncryptRequest.pan` (`Field(min_length=12,
max_length=19)`, lines 75-76) that runs before the handler body. Always
returns the resulting state; every error path leaves the table
untouched. -/
def encrypt (key : List Nat) (rng : RNG) (now : String) (s : SysState) (pan : String) :
    Except ApiError EncryptResponse × SysState :=
  if ¬ (12 ≤ pan.length ∧ pan.length ≤ 19) then
    (Except.error (ApiError.validation "pan length must be between 12 and 19"), s)
  else if ¬ (pythonIsDigit pan = true) then
    (Except.error (ApiError.http 400 "PAN must contain only digits"), s)
  else
    let pan_bytes := utf8Encode pan
    let er := encrypt_pan_bytes key rng.byteStream s.bytePos pan_bytes
    let nonce := er.1.1
    let ciphertext := er.1.2
    let token := rng.tokenStream s.tokenPos
    let first6 := String.mk (pan.data.take 6)
    let last4 := String.mk (pan.data.drop (pan.data.length - 4))
    let pan_length := pan.length
    match save_token s.db token nonce ciphertext pan_length first6 last4 now with
    | Except.error _ =>
        (Except.error (ApiError.unhandled "sqlite3.IntegrityError"),
         { db := s.db, bytePos := er.2, tokenPos := s.tokenPos + 1 })
    | Except.ok db2 =>
        (Except.ok { token := token, masked_pan := mask_pan first6 last4 (pan_length : Int) },
         { db := db2, bytePos := er.2, tokenPos := s.tokenPos + 1 })

/-- The `/decrypt` endpoint (`main.py` lines 185-198) with the
`require_admin` dependency (lines 157-160). Both an AEAD failure and a
UTF-8 decode failure are caught by the same `except` and flattened to
the constant `HTTPException(500, "Decryption failed")`. -/
def decrypt (key : List Nat) (adminKey : String) (apiKey : Option String)
    (db : List TokenRecord) (token : String) : Except ApiError DecryptResponse :=
  if apiKey ≠ some adminKey then Except.error (ApiError.http 401 "Invalid admin API key.")
  else
    match get_token_record db token with
    | none => Except.error (ApiError.http 404 "Token not found")
    | some record =>
      match decrypt_pan_bytes key record.nonce record.ciphertext with
      | none => Except.error (ApiError.http 500 "Decryption failed")
      | some pan_bytes =>
        match utf8Decode pan_bytes with
        | none => Except.error (ApiError.http 500 "Decryption failed")
        | some pan =>
          Except.ok { pan := pan,
                      masked_pan := mask_pan record.first6 record.last4 (record.pan_length : Int) }

/-- The `/token/{token}` endpoint (`main.py` lines 201-213): unprivileged
metadata lookup; never touches ciphertext or nonce, never decrypts. -/
def get_metadata (db : List TokenRecord) (token : String) : Except ApiError TokenMetadata :=
  match get_token_record db token with
  | none => Except.error (ApiError.http 404 "Token not found")
  | some record =>
    Except.ok { token := token,
                masked_pan := mask_pan record.first6 record.last4 (record.pan_length : Int),
                created_at := record.created_at }

/-! ## Helper lemmas -/

/-- Every `Char` carries a valid Unicode scalar value. -/
theorem char_toNat_valid (c : Char) :
    c.toNat < 0xd800 ∨ (0xdfff < c.toNat ∧ c.toNat < 0x110000) :=
  c.valid

/-- UTF-8 encoding of a character is never empty. -/
theorem utf8EncodeChar_length_pos (c : Char) : 1 ≤ (utf8EncodeChar c).length := by
  simp only [utf8EncodeChar]
  split <;> [simp; split <;> [simp; split <;> simp]]

/-- Decoding inverts encoding one character at a time, for every valid
Unicode scalar value and any trailing bytes. -/
theorem utf8DecodeChar_encode (c : Char) (rest : List Nat) :
    utf8DecodeChar (utf8EncodeChar c ++ rest) = some (c, rest) := by
  have hv := char_toNat_valid c
  by_cases h1 : c.toNat < 0x80
  · have hb : utf8EncodeChar c ++ rest = c.toNat :: rest := by
      simp [utf8EncodeChar, h1]
    rw [hb]
    simp only [utf8DecodeChar, if_pos h1, Char.ofNat_toNat]
  · by_cases h2 : c.toNat < 0x800
    · have hb : utf8EncodeChar c ++ rest
          = (0xC0 + c.toNat / 64) :: (0x80 + c.toNat % 64) :: rest := by
        simp [utf8EncodeChar, h1, h2]
      rw [hb]
      simp only [utf8DecodeChar]
      rw [if_neg (by omega), if_neg (by omega), if_pos (by omega)]
      simp only [utf8Cont1]
      rw [if_pos (by omega)]
      have hn : (0xC0 + c.toNat / 64 - 0xC0) * 64 + (0x80 + c.toNat % 64 - 0x80)
          = c.toNat := by omega
      rw [hn, Char.ofNat_toNat]
    · by_cases h3 : c.toNat < 0x10000
      · have hb : utf8EncodeChar c ++ rest
            = (0xE0 + c.toNat / 4096) :: (0x80 + (c.toNat / 64) % 64)
              :: (0x80 + c.toNat % 64) :: rest := by
          simp [utf8EncodeChar, h1, h2, h3]
        rw [hb]
        simp only [utf8DecodeChar]
        rw [if_neg (by omega), if_neg (by omega), if_neg (by omega), if_pos (by omega)]
        simp only [utf8Cont2]
        rw [if_pos (by constructor <;> omega)]
        have hn : (0xE0 + c.toNat / 4096 - 0xE0) * 4096
            + (0x80 + (c.toNat / 64) % 64 - 0x80) * 64 + (0x80 + c.toNat % 64 - 0x80)
            = c.toNat := by omega
        rw [hn]
        rw [if_pos (by omega)]
        rw [Char.ofNat_toNat]
      · have hb : utf8EncodeChar c ++ rest
            = (0xF0 + c.toNat / 262144) :: (0x80 + (c.toNat / 4096) % 64)
              :: (0x80 + (c.toNat / 64) % 64) :: (0x80 + c.toNat % 64) :: rest := by
          simp [utf8EncodeChar, h1, h2, h3]
        rw [hb]
        simp only [utf8DecodeChar]
        rw [if_neg (by omega), if_neg (by omega), if_neg (by omega), if_neg (by omega),
          if_pos (by omega)]
        simp only [utf8Cont3]
        rw [if_pos (by refine ⟨by omega, by omega, by omega⟩)]
        have hn : (0xF0 + c.toNat / 262144 - 0xF0) * 262144
            + (0x80 + (c.toNat / 4096) % 64 - 0x80) * 4096
            + (0x80 + (c.toNat / 64) % 64 - 0x80) * 64 + (0x80 + c.toNat % 64 - 0x80)
            = c.toNat := by omega
        rw [hn]
        rw [if_pos (by omega)]
        rw [Char.ofNat_toNat]

/-- The decode loop inverts encoding of a character list whenever the
fuel covers the byte count. -/
theorem utf8DecodeAux_encode (cs : List Char) :
    ∀ fuel : Nat, (cs.flatMap utf8EncodeChar).length ≤ fuel →
      utf8DecodeAux fuel (cs.flatMap utf8EncodeChar) = some cs := by
  induction cs with
  | nil =>
    intro fuel _
    simp [utf8DecodeAux]
  | cons c cs ih =>
    intro fuel hfuel
    have hlenc := utf8EncodeChar_length_pos c
    have hflat : (c :: cs).flatMap utf8EncodeChar
        = utf8EncodeChar c ++ cs.flatMap utf8EncodeChar := by
      simp [List.flatMap_cons]
    rw [hflat] at hfuel ⊢
    have hlen : 1 ≤ (utf8EncodeChar c ++ cs.flatMap utf8EncodeChar).length := by
      simp; omega
    obtain ⟨b, bs, hb⟩ : ∃ b bs, utf8EncodeChar c ++ cs.flatMap utf8EncodeChar = b :: bs := by
      cases hx : utf8EncodeChar c ++ cs.flatMap utf8EncodeChar with
      | nil => rw [hx] at hlen; simp at hlen
      | cons b bs => exact ⟨b, bs, rfl⟩
    obtain ⟨fuel', rfl⟩ : ∃ fuel', fuel = fuel' + 1 := by
      rw [hb] at hfuel
      cases fuel with
      | zero => simp at hfuel
      | succ f => exact ⟨f, rfl⟩
    rw [hb]
    simp only [utf8DecodeAux]
    rw [← hb, utf8DecodeChar_encode c]
    have hrest : (cs.flatMap utf8EncodeChar).length ≤ fuel' := by
      have : (utf8EncodeChar c ++ cs.flatMap utf8EncodeChar).length
          = (utf8EncodeChar c).length + (cs.flatMap utf8EncodeChar).length := by simp
      omega
    show Option.map (fun l => c :: l) (utf8DecodeAux fuel' (cs.flatMap utf8EncodeChar))
        = some (c :: cs)
    rw [ih fuel' hrest]
    rfl

/-- UTF-8 decode inverts UTF-8 encode on every string. -/
theorem utf8_roundtrip (s : String) : utf8Decode (utf8Encode s) = some s := by
  unfold utf8Decode utf8Encode
  rw [utf8DecodeAux_encode s.data _ (Nat.le_refl _)]
  rfl

/-! ## Claim theorems -/

/-- C2: for every `first6`, `last4` and `totalLength` with
`totalLength ≥ len(first6) + len(last4)`, `mask_pan` returns `first6`
concatenated with `totalLength - len(first6) - len(last4)` asterisks
concatenated with `last4`; in particular the output has length
`totalLength`, starts with `first6`, ends with `last4`, every middle
character is an asterisk, and `mask_pan "411111" "1111" 16` is
`"411111******1111"`. -/
theorem mask_pan_spec (f6 l4 : String) (L : Int)
    (h : (f6.length : Int) + (l4.length : Int) ≤ L) :
    (mask_pan f6 l4 L).data
      = f6.data ++ List.replicate (L - (f6.length : Int) - (l4.length : Int)).toNat '*' ++ l4.data
    ∧ ((mask_pan f6 l4 L).length : Int) = L
    ∧ mask_pan "411111" "1111" 16 = "411111******1111" := by
  refine ⟨by simp [mask_pan], ?_, by rfl⟩
  have hlen : (mask_pan f6 l4 L).length
      = f6.length + (L - (f6.length : Int) - (l4.length : Int)).toNat + l4.length := by
    simp [mask_pan, String.length_append, String.length_mk]
  rw [hlen]
  push_cast
  rw [Int.toNat_of_nonneg (by omega)]
  ring

/-- Witness for C2 at the spec example. -/
theorem mask_pan_spec_witness :
    (("411111".length : Int) + ("1111".length : Int) ≤ 16)
    ∧ mask_pan "411111" "1111" 16 = "411111******1111" :=
  ⟨by decide, (mask_pan_spec "411111" "1111" 16 (by decide)).2.2⟩

/-- C10: when `totalLength < len(first6) + len(last4)`, `mask_pan` does
not fail: it returns `first6 ++ last4` with no mask characters, whose
length is `len(first6) + len(last4)`, strictly longer than
`totalLength`, violating the `pan_length` decomposition equation. -/
theorem mask_pan_short_input (f6 l4 : String) (L : Int)
    (h : L < (f6.length : Int) + (l4.length : Int)) :
    mask_pan f6 l4 L = f6 ++ l4
    ∧ ((mask_pan f6 l4 L).length : Int) = (f6.length : Int) + (l4.length : Int)
    ∧ L < ((mask_pan f6 l4 L).length : Int) := by
  have hm : (L - (f6.length : Int) - (l4.length : Int)).toNat = 0 := by omega
  have h1 : mask_pan f6 l4 L = f6 ++ l4 := by
    apply String.ext
    simp [mask_pan, hm]
  have h2 : (((f6 ++ l4).length : Nat) : Int) = (f6.length : Int) + (l4.length : Int) := by
    simp [String.length_append]
  exact ⟨h1, by rw [h1, h2], by rw [h1, h2]; omega⟩

/-- Witness for C10: a 16-digit-style first6/last4 with an undersized total length. -/
theorem mask_pan_short_input_witness :
    ((5 : Int) < ("411111".length : Int) + ("1111".length : Int))
    ∧ mask_pan "411111" "1111" 5 = "411111" ++ "1111" :=
  ⟨by decide, (mask_pan_short_input "411111" "1111" 5 (by decide)).1⟩

/-- C8: the master key length is validated once at startup: the gate
accepts exactly the lengths 16, 24 and 32, and any other length stops
the process with the fatal `SystemExit` configuration error (never a
call-time failure). -/
theorem master_key_validated_at_startup (key : List Nat) :
    (masterKeyStartup key = Except.ok key
       ↔ (key.length = 16 ∨ key.length = 24 ∨ key.length = 32))
    ∧ (masterKeyStartup key = Except.ok key
       ∨ masterKeyStartup key
           = Except.error "MASTER_KEY must be 16, 24, or 32 bytes for AES-GCM") := by
  unfold masterKeyStartup
  by_cases h : key.length = 16 ∨ key.length = 24 ∨ key.length = 32
  · simp [h]
  · simp [h]

/-- Witness for C8: a 32-byte key passes the startup gate. -/
theorem master_key_validated_at_startup_witness :
    masterKeyStartup (List.replicate 32 0) = Except.ok (List.replicate 32 0) :=
  (master_key_validated_at_startup (List.replicate 32 0)).1.mpr (by decide)

/-- C9: every `encrypt_pan_bytes` call draws a fresh 12-byte nonce from
the random byte stream (advancing it by exactly 12 bytes, never fewer)
and returns it together with the authenticated encryption of the
plaintext under the key with no associated data. -/
theorem encrypt_pan_bytes_spec (key : List Nat) (stream : Nat → Nat) (pos : Nat)
    (pt : List Nat) :
    (encrypt_pan_bytes key stream pos pt).1.1.length = 12
    ∧ (encrypt_pan_bytes key stream pos pt).1.2
        = aesgcmEncrypt key (encrypt_pan_bytes key stream pos pt).1.1 pt none
    ∧ ((encrypt_pan_bytes key stream pos pt).1.2).payload = pt
    ∧ ((encrypt_pan_bytes key stream pos pt).1.2).aad = none
    ∧ ((encrypt_pan_bytes key stream pos pt).1.2).intact = true
    ∧ (encrypt_pan_bytes key stream pos pt).2 = pos + 12 := by
  refine ⟨?_, rfl, rfl, rfl, rfl, rfl⟩
  simp [encrypt_pan_bytes, token_bytes]

/-- C5: the unprivileged resolve path returns only the token, the masked
PAN and the creation time, and attempts no decryption: its response is a
function of `first6`, `last4`, `pan_length` and `created_at` alone, so
two stored records agreeing on those fields — whatever their underlying
encrypted PAN middles — produce identical responses. -/
theorem get_metadata_unprivileged (db₁ db₂ : List TokenRecord) (t : String)
    (r₁ r₂ : TokenRecord)
    (h₁ : get_token_record db₁ t = some r₁) (h₂ : get_token_record db₂ t = some r₂)
    (hf : r₁.first6 = r₂.first6) (hl : r₁.last4 = r₂.last4)
    (hp : r₁.pan_length = r₂.pan_length) (hc : r₁.created_at = r₂.created_at) :
    get_metadata db₁ t = get_metadata db₂ t
    ∧ get_metadata db₁ t = Except.ok
        { token := t, masked_pan := mask_pan r₁.first6 r₁.last4 (r₁.pan_length : Int),
          created_at := r₁.created_at } := by
  constructor
  · simp only [get_metadata, h₁, h₂, hf, hl, hp, hc]
  · simp only [get_metadata, h₁, hf, hl, hp, hc]

/-- A record whose encrypted middle differs from `recMetaB` while all
metadata fields agree. -/
def recMetaA : TokenRecord :=
  { token := "T0", ciphertext := aesgcmEncrypt [1] [2] [52, 52, 52] none, nonce := [2],
    pan_length := 16, first6 := "411111", last4 := "1111", created_at := "2024-01-01" }

/-- A record agreeing with `recMetaA` on all metadata fields but holding
a different encrypted middle. -/
def recMetaB : TokenRecord :=
  { token := "T0", ciphertext := aesgcmEncrypt [1] [3] [53, 53, 53] none, nonce := [3],
    pan_length := 16, first6 := "411111", last4 := "1111", created_at := "2024-01-01" }

/-- Witness for C5: two stores whose records share token, first6, last4,
pan_length and created_at but hold different encrypted middles. -/
theorem get_metadata_unprivileged_witness :
    get_metadata [recMetaA] "T0" = get_metadata [recMetaB] "T0" :=
  (get_metadata_unprivileged [recMetaA] [recMetaB] "T0" recMetaA recMetaB
    (by decide) (by decide) rfl rfl rfl rfl).1

/-- C6: resolving a token absent from the store fails with the 404
"Token not found" error on both the privileged decrypt path and the
unprivileged metadata path, and that error is distinct from the
storage-failure error. -/
theorem unknown_token_not_found (key : List Nat) (adminKey : String)
    (db : List TokenRecord) (t : String)
    (h : get_token_record db t = none) :
    decrypt key adminKey (some adminKey) db t
      = Except.error (ApiError.http 404 "Token not found")
    ∧ get_metadata db t = Except.error (ApiError.http 404 "Token not found")
    ∧ ApiError.http 404 "Token not found" ≠ ApiError.unhandled "sqlite3.IntegrityError" := by
  refine ⟨?_, ?_, by decide⟩
  · unfold decrypt
    rw [if_neg (by simp), h]
  · unfold get_metadata
    rw [h]

/-- Witness for C6: the token "does-not-exist" on an empty store. -/
theorem unknown_token_not_found_witness :
    decrypt (List.replicate 32 0) "admin-placeholder" (some "admin-placeholder") []
        "does-not-exist"
      = Except.error (ApiError.http 404 "Token not found") :=
  (unknown_token_not_found (List.replicate 32 0) "admin-placeholder" [] "does-not-exist"
    (by decide)).1

/-- C7: a stored record whose ciphertext or nonce has been tampered with
— the ciphertext is no longer the one AES-GCM produced (`intact =
false`), or the stored nonce no longer matches the one the ciphertext
was produced under, so the AEAD tag fails to verify either way — makes
privileged resolve fail with the constant generic error
`HTTPException(500, "Decryption failed")`: the same value for every such
record, exposing no cryptographic detail, and never any plaintext. -/
theorem tampered_ciphertext_generic_error (key : List Nat) (adminKey : String)
    (db : List TokenRecord) (t : String) (r : TokenRecord)
    (h : get_token_record db t = some r)
    (ht : r.ciphertext.intact = false ∨ r.nonce ≠ r.ciphertext.encNonce) :
    decrypt key adminKey (some adminKey) db t
      = Except.error (ApiError.http 500 "Decryption failed") := by
  have hd : decrypt_pan_bytes key r.nonce r.ciphertext = none := by
    unfold decrypt_pan_bytes aesgcmDecrypt
    rw [if_neg]
    intro hcon
    rcases ht with ht | ht
    · rw [ht] at hcon
      exact Bool.false_ne_true hcon.1
    · exact ht hcon.2.2.1.symm
  unfold decrypt
  rw [if_neg (by simp)]
  simp only [h, hd]

/-- A stored record whose ciphertext was tampered with after encryption. -/
def recTampered : TokenRecord :=
  { token := "T0",
    ciphertext := { encKey := [9], encNonce := [2], payload := [52], aad := none,
                    intact := false },
    nonce := [2], pan_length := 16, first6 := "411111", last4 := "1111",
    created_at := "2024-01-01" }

/-- Witness for C7: a one-record store whose ciphertext was tampered with. -/
theorem tampered_ciphertext_generic_error_witness :
    decrypt [9] "adm" (some "adm") [recTampered] "T0"
      = Except.error (ApiError.http 500 "Decryption failed") :=
  tampered_ciphertext_generic_error [9] "adm" [recTampered] "T0" recTampered
    (by decide) (by decide)

/-- C3 (amended): any request whose `pan` fails Python's `str.isdigit()`
— which accepts not only the ASCII digits but every Unicode character
with Numeric_Type Digit or Decimal — or whose length is outside 12..19
makes `/encrypt` fail, with the pydantic length rejection or the 400
`HTTPException`, the two faces of the spec's `InvalidPanError`, and
leaves the state (the token table and both random-stream positions)
completely unchanged. The original claim's digit-only (0-9) reading is
refuted by the counterexample below: the handler's check is Python's
`isdigit`, which admits strings such as twelve copies of U+00B2. -/
theorem invalid_pan_rejected (key : List Nat) (rng : RNG) (now : String) (s : SysState)
    (pan : String)
    (h : ¬ (pythonIsDigit pan = true ∧ 12 ≤ pan.length ∧ pan.length ≤ 19)) :
    (encrypt key rng now s pan).2 = s
    ∧ ((encrypt key rng now s pan).1
         = Except.error (ApiError.validation "pan length must be between 12 and 19")
       ∨ (encrypt key rng now s pan).1
         = Except.error (ApiError.http 400 "PAN must contain only digits")) := by
  unfold encrypt
  split
  · exact ⟨rfl, Or.inl rfl⟩
  next hlen =>
    split
    · exact ⟨rfl, Or.inr rfl⟩
    next hdig =>
      rw [not_not] at hlen hdig
      exact absurd ⟨hdig, hlen⟩ h

/-- Witness for C3: a non-digit 12-character PAN is rejected with the
400 error and the state survives untouched. -/
theorem invalid_pan_rejected_witness :
    (¬ (pythonIsDigit "abcd1234abcd" = true
        ∧ 12 ≤ "abcd1234abcd".length ∧ "abcd1234abcd".length ≤ 19))
    ∧ (encrypt [0] { byteStream := fun _ => 7, tokenStream := fun _ => "T9" } "2024-01-01"
          { db := [], bytePos := 0, tokenPos := 0 } "abcd1234abcd").2
        = { db := [], bytePos := 0, tokenPos := 0 } :=
  ⟨by decide,
   (invalid_pan_rejected [0] { byteStream := fun _ => 7, tokenStream := fun _ => "T9" }
     "2024-01-01" { db := [], bytePos := 0, tokenPos := 0 } "abcd1234abcd" (by decide)).1⟩

/-- Concrete master key for witnesses: 32 zero bytes. -/
def keyW : List Nat := List.replicate 32 0

/-- Concrete random sources for witnesses: a constant byte stream and a
token stream whose first draw is "T0" and later draws are "T1". -/
def rngW : RNG :=
  { byteStream := fun _ => 7, tokenStream := fun n => if n = 0 then "T0" else "T1" }

/-- A one-record store already holding the token "T0". -/
def dbDup : List TokenRecord :=
  [{ token := "T0",
     ciphertext := { encKey := [], encNonce := [], payload := [], aad := none, intact := true },
     nonce := [], pan_length := 16, first6 := "411111", last4 := "1111",
     created_at := "2024-01-01" }]

/-- C3 counterexample: the frozen claim's digit-only (0-9) reading fails
on the code. The 12-character string of U+00B2 (superscript two) is not
a 0-9 digit string, yet Python's `isdigit` accepts it (U+00B2 has
Numeric_Type Digit), so `/encrypt` tokenizes it: the call succeeds,
returns a token and masked form, and inserts a record — state mutated —
instead of failing with `InvalidPanError`. -/
theorem unicode_digit_accepted_counterexample :
    ("²²²²²²²²²²²²".data.all Char.isDigit) = false
    ∧ "²²²²²²²²²²²²".length = 12
    ∧ pythonIsDigit "²²²²²²²²²²²²" = true
    ∧ (encrypt keyW rngW "2024-01-01" { db := [], bytePos := 0, tokenPos := 0 }
         "²²²²²²²²²²²²").1
        = Except.ok { token := "T0", masked_pan := "²²²²²²**²²²²" }
    ∧ (encrypt keyW rngW "2024-01-01" { db := [], bytePos := 0, tokenPos := 0 }
         "²²²²²²²²²²²²").2.db
        ≠ [] :=
  ⟨by decide, by decide, by decide, by rfl, by decide⟩

/-- C4 counterexample: claimed, the orchestrator retries on a duplicate
token. On a store holding "T0", with a token stream whose first draw is
the duplicate "T0" and whose second draw is the fresh "T1" (so a single
retry would succeed, well within any bound of 3), `/encrypt` instead
fails at once with the unhandled `sqlite3.IntegrityError`, having
consumed exactly one token draw and inserted nothing. -/
theorem tokenize_no_retry_counterexample :
    (dbDup.any (fun r => r.token == rngW.tokenStream 0)) = true
    ∧ (dbDup.any (fun r => r.token == rngW.tokenStream 1)) = false
    ∧ encrypt keyW rngW "2024-01-01" { db := dbDup, bytePos := 0, tokenPos := 0 }
        "4111111111111111"
      = (Except.error (ApiError.unhandled "sqlite3.IntegrityError"),
         { db := dbDup, bytePos := 12, tokenPos := 1 }) :=
  ⟨by decide, by decide, by rfl⟩

/-- C4 (amended): on a duplicate token during `/encrypt`, the
orchestrator does not retry at all: the very first
`sqlite3.IntegrityError` escapes unhandled as a storage failure, exactly
one token is drawn from the generator, and the table is left unchanged. -/
theorem tokenize_duplicate_no_retry (key : List Nat) (rng : RNG) (now : String)
    (s : SysState) (pan : String)
    (hlen : 12 ≤ pan.length ∧ pan.length ≤ 19) (hdig : pythonIsDigit pan = true)
    (hdup : s.db.any (fun r => r.token == rng.tokenStream s.tokenPos) = true) :
    encrypt key rng now s pan
      = (Except.error (ApiError.unhandled "sqlite3.IntegrityError"),
         { db := s.db, bytePos := s.bytePos + 12, tokenPos := s.tokenPos + 1 }) := by
  unfold encrypt
  rw [if_neg (not_not_intro hlen), if_neg (not_not_intro hdig)]
  simp only [save_token, encrypt_pan_bytes, hdup, if_true]

/-- Witness for C4 (amended): the concrete duplicate-token store. -/
theorem tokenize_duplicate_no_retry_witness :
    encrypt keyW rngW "2024-01-01" { db := dbDup, bytePos := 0, tokenPos := 0 }
        "4111111111111111"
      = (Except.error (ApiError.unhandled "sqlite3.IntegrityError"),
         { db := dbDup, bytePos := 0 + 12, tokenPos := 0 + 1 }) :=
  tokenize_duplicate_no_retry keyW rngW "2024-01-01"
    { db := dbDup, bytePos := 0, tokenPos := 0 } "4111111111111111"
    (by decide) (by decide) (by decide)

/-- C1: for every PAN accepted by `/encrypt` (all digits, length 12-19),
resolving the returned token through the privileged `/decrypt` path on
the post-call state returns exactly the original PAN (round-trip through
AES-GCM encryption, storage, lookup and decryption), together with the
same masked PAN the tokenize call reported. -/
theorem tokenize_resolve_roundtrip (key : List Nat) (adminKey : String) (rng : RNG)
    (now : String) (s : SysState) (pan : String) (resp : EncryptResponse) (s₂ : SysState)
    (h : encrypt key rng now s pan = (Except.ok resp, s₂)) :
    decrypt key adminKey (some adminKey) s₂.db resp.token
      = Except.ok { pan := pan, masked_pan := resp.masked_pan } := by
  unfold encrypt at h
  split at h
  · exact absurd (congrArg Prod.fst h) (by simp)
  next hlen =>
  split at h
  · exact absurd (congrArg Prod.fst h) (by simp)
  next hdig =>
  by_cases hdup : s.db.any (fun r => r.token == rng.tokenStream s.tokenPos) = true
  · simp only [save_token, encrypt_pan_bytes, hdup, if_true] at h
    exact absurd (congrArg Prod.fst h) (by simp)
  · rw [Bool.not_eq_true] at hdup
    simp only [save_token, encrypt_pan_bytes, hdup, Bool.false_eq_true, if_false,
      Prod.mk.injEq, Except.ok.injEq] at h
    obtain ⟨hresp, hstate⟩ := h
    subst hresp
    subst hstate
    unfold decrypt
    rw [if_neg (by simp)]
    unfold get_token_record
    rw [List.find?_cons_of_pos _ (by simp)]
    simp only [decrypt_pan_bytes, aesgcmDecrypt, aesgcmEncrypt, if_pos, and_self,
      utf8_roundtrip pan]

/-- Witness for C1: tokenize the spec example PAN on an empty store and
resolve the resulting token in privileged mode. -/
theorem tokenize_resolve_roundtrip_witness :
    decrypt keyW "adm" (some "adm")
        [{ token := "T0",
           ciphertext := aesgcmEncrypt keyW (token_bytes rngW.byteStream 0 12)
             (utf8Encode "4111111111111111") none,
           nonce := token_bytes rngW.byteStream 0 12, pan_length := 16,
           first6 := "411111", last4 := "1111", created_at := "2024-01-01" }]
        "T0"
      = Except.ok { pan := "4111111111111111", masked_pan := "411111******1111" } :=
  tokenize_resolve_roundtrip keyW "adm" rngW "2024-01-01"
    { db := [], bytePos := 0, tokenPos := 0 } "4111111111111111"
    { token := "T0", masked_pan := "411111******1111" }
    { db := [{ token := "T0",
               ciphertext := aesgcmEncrypt keyW (token_bytes rngW.byteStream 0 12)
                 (utf8Encode "4111111111111111") none,
               nonce := token_bytes rngW.byteStream 0 12, pan_length := 16,
               first6 := "411111", last4 := "1111", created_at := "2024-01-01" }],
      bytePos := 12, tokenPos := 1 }
    (by rfl)

end PanService
